import Mathlib

/-!
Verification of the repeat-run orchestrator of `cypress-repeat-pro`
(`src/index.js`) against its natural-language specification.

The JavaScript program is shallowly embedded as pure Lean functions:

* `RunOptions` models the per-attempt run configuration produced by
  `cypress.cli.parseRunArguments` (only the fields the orchestrator
  touches: `env`, `record`, `group`, `force`, `spec`).
* `TestResults` models the result object of one `cypress.run` call;
  the four count fields may be absent (`undefined`), hence `Option Nat`.
* `buildRunOption` / `buildAllRunOptions` embed the configuration
  building loop (index.js lines 75-93).
* `onTestResults` embeds the callback of the same name
  (index.js lines 101-154), returning the updated mutable state together
  with a `StepOutcome`: `resolve` (the promise chain continues) or
  `reject msg` (the promise chain is rejected with an `Error(msg)`).
* `runLoopFrom` / `runLoop` embed `Bluebird.mapSeries`
  (index.js lines 96-157): attempts are executed in order and the chain
  stops at the first rejection; an external-run ("infrastructure")
  rejection of `cypress.run` itself is modelled by `RunOutcome.err`.
* `mkResultSummary`, `finalReport` and `orchestrate` embed the
  `.finally` and `.catch` handlers (index.js lines 159-192).
-/

/-- JS truthiness of an optional numeric field: `undefined` and `0`
are falsy, every other number is truthy. -/
def truthyNum : Option Nat → Bool
  | none => false
  | some v => v != 0

/-- JS truthiness of an optional string field: `undefined` and the
empty string are falsy. -/
def truthyStr : Option String → Bool
  | none => false
  | some s => s != ""

/-- The slice of a parsed Cypress run configuration that index.js reads
or writes (the remaining fields are opaque and never touched). -/
structure RunOptions where
  env : Option String
  record : Bool
  group : Option String
  force : Bool
  spec : Option String
deriving Repr, DecidableEq

/-- Per-file statistics inside a run result (`run.stats`). -/
structure RunStats where
  failures : Nat
deriving Repr, DecidableEq

/-- Spec-file description inside a run result (`run.spec`). -/
structure SpecInfo where
  relative : String
deriving Repr, DecidableEq

/-- One per-file outcome in `testResults.runs`. -/
structure RunEntry where
  spec : SpecInfo
  stats : RunStats
deriving Repr, DecidableEq

/-- The result object delivered by one `cypress.run` call.  Count
fields can be `undefined` in the source, hence `Option Nat`;
`status` is `"finished"` or `"failed"`; `failures` only appears on
failed-to-run results. -/
structure TestResults where
  totalTests : Option Nat
  totalPassed : Option Nat
  totalFailed : Option Nat
  totalSkipped : Option Nat
  status : String
  failures : Option Nat
  runs : List RunEntry
deriving Repr, DecidableEq

/-- Quick and dirty deep clone (index.js line 60).  In the pure
embedding a value copy is the identity. -/
def clone (x : RunOptions) : RunOptions := x

/-- The env string injected for attempt `k` (0-indexed), index.js
line 77. -/
def envVariables (repeatNtimes k : Nat) : String :=
  "cypress_repeat_n=" ++ toString repeatNtimes ++ ",cypress_repeat_k=" ++ toString (k + 1)

/-- Build the configuration of attempt `k` (0-indexed) from the parsed
base options: the body of the `for` loop at index.js lines 75-92. -/
def buildRunOption (options : RunOptions) (repeatNtimes : Nat) (forceContinue : Bool) (k : Nat) : RunOptions :=
  let runOptions := clone options
  let ev := envVariables repeatNtimes k
  let runOptions := { runOptions with
    env := some (if truthyStr runOptions.env then runOptions.env.getD "" ++ "," ++ ev else ev) }
  let runOptions :=
    if options.record && truthyStr options.group then
      let runOptions := { runOptions with group := options.group }
      if truthyStr runOptions.group && repeatNtimes > 1 then
        { runOptions with
          group := some ((runOptions.group.getD "") ++ "-" ++ toString (k + 1) ++ "-of-" ++ toString repeatNtimes) }
      else runOptions
    else runOptions
  if forceContinue then { runOptions with force := true } else runOptions

/-- The full `allRunOptions` array built before any attempt runs
(index.js lines 73-94). -/
def buildAllRunOptions (options : RunOptions) (repeatNtimes : Nat) (forceContinue : Bool) : List RunOptions :=
  (List.range repeatNtimes).map (buildRunOption options repeatNtimes forceContinue)

/-- The mutable process-wide state of the orchestration: the counters
declared at index.js lines 51-55, the shared `allRunOptions` array, and
an instrumentation counter `executed` recording how many `cypress.run`
invocations have started. -/
structure LoopState where
  totalTests : Nat
  totalPassed : Nat
  totalFailed : Nat
  totalSkipped : Nat
  anyTestFailed : Bool
  allRunOptions : List RunOptions
  executed : Nat
deriving Repr, DecidableEq

/-- What the `onTestResults` callback does to the promise chain:
return normally (`resolve`) or return a rejected promise
(`reject msg`). -/
inductive StepOutcome
  | resolve
  | reject (msg : String)
deriving Repr, DecidableEq

/-- The unconditional totals update at index.js lines 103-106
(`testResults.totalTests || 0` is `Option.getD 0`). -/
def accumulate (st : LoopState) (r : TestResults) : LoopState :=
  { st with
    totalTests := st.totalTests + r.totalTests.getD 0,
    totalPassed := st.totalPassed + r.totalPassed.getD 0,
    totalFailed := st.totalFailed + r.totalFailed.getD 0,
    totalSkipped := st.totalSkipped + r.totalSkipped.getD 0 }

/-- The comma-joined relative paths of the files with nonzero failures
(index.js lines 110-113). -/
def failedSpecsOf (r : TestResults) : String :=
  String.intercalate ","
    ((r.runs.filter (fun run => run.stats.failures != 0)).map (fun run => run.spec.relative))

/-- Mutation of one array element, `allRunOptions[i] = f(allRunOptions[i])`;
out-of-range indices leave the list unchanged (unreachable in the
program since the write is at `k+1` with `k` not the last index). -/
def listModify {α : Type} : List α → Nat → (α → α) → List α
  | [], _, _ => []
  | a :: l, 0, f => f a :: l
  | a :: l, Nat.succ i, f => a :: listModify l i f

/-- The tail of `onTestResults` after the rerun-failed-only block:
the `status === 'failed'` check (lines 127-135) and the
until-passes / default decision (lines 137-153).  The state component
is the input state with `anyTestFailed` set exactly when
`status === 'failed'` and `failures` is truthy. -/
def afterRerunChecks (up rfo fc : Bool) (k n : Nat) (isLastRun : Bool) (st : LoopState) (r : TestResults) : LoopState × StepOutcome :=
  let failedStatus := r.status == "failed" && truthyNum r.failures
  let stF := if failedStatus then { st with anyTestFailed := true } else st
  let out : StepOutcome :=
    if failedStatus && !fc then
      .reject "Test results indicate failures"
    else if up then
      if !truthyNum r.totalFailed then
        .reject "No failures detected, exiting with success."
      else if !fc && (k == n - 1) then
        .reject "No more attempts left"
      else .resolve
    else
      if truthyNum r.totalFailed && !fc && (!rfo || isLastRun) then
        .reject "Failures detected and conditions met"
      else .resolve
  (stF, out)

/-- The `onTestResults` callback for attempt `k` of `n`
(index.js lines 101-154).  Control flow, in source order: accumulate
totals; when rerun-failed-only and not the last run, either patch
`allRunOptions[k+1].spec` with the joined failed specs (when that
string is nonempty) or — when it is empty and `forceContinue` is
false — return a resolved promise immediately, skipping every later
check; otherwise fall through to `afterRerunChecks`. -/
def onTestResults (up rfo fc : Bool) (k n : Nat) (st0 : LoopState) (r : TestResults) : LoopState × StepOutcome :=
  let st := accumulate st0 r
  let isLastRun := k == n - 1
  if rfo && !isLastRun then
    let failedSpecs := failedSpecsOf r
    if failedSpecs.length != 0 then
      let st := { st with
        allRunOptions := listModify st.allRunOptions (k + 1) (fun o => { o with spec := some failedSpecs }) }
      afterRerunChecks up rfo fc k n isLastRun st r
    else if !fc then
      (st, .resolve)
    else
      afterRerunChecks up rfo fc k n isLastRun st r
  else
    afterRerunChecks up rfo fc k n isLastRun st r

/-- Outcome of one external `cypress.run` call: a delivered result
object, or an infrastructure rejection of the run promise itself. -/
inductive RunOutcome
  | ok (result : TestResults)
  | err (msg : String)
deriving Repr, DecidableEq

/-- How the `Bluebird.mapSeries` promise chain ended: fulfilled after
the last attempt, or rejected with an error message (by
`onTestResults` or by `cypress.run` itself). -/
inductive LoopExit
  | completed
  | rejected (msg : String)
deriving Repr, DecidableEq

/-- `Bluebird.mapSeries` over the remaining attempt indices `ks`
(index.js lines 97-157): run attempts in order, stop at the first
rejection.  `results` is the oracle for the external run capability. -/
def runLoopFrom (up rfo fc : Bool) (n : Nat) (results : Nat → RunOutcome) : List Nat → LoopState → LoopState × LoopExit
  | [], st => (st, .completed)
  | k :: ks, st =>
    let st1 := { st with executed := st.executed + 1 }
    match results k with
    | .err m => (st1, .rejected m)
    | .ok r =>
      match onTestResults up rfo fc k n st1 r with
      | (st2, .resolve) => runLoopFrom up rfo fc n results ks st2
      | (st2, .reject m) => (st2, .rejected m)

/-- The initial mutable state (index.js lines 51-55). -/
def initState (allRunOptions : List RunOptions) : LoopState :=
  { totalTests := 0, totalPassed := 0, totalFailed := 0, totalSkipped := 0,
    anyTestFailed := false, allRunOptions := allRunOptions, executed := 0 }

/-- The whole `Bluebird.mapSeries` call over `allRunOptions`. -/
def runLoop (up rfo fc : Bool) (allRunOptions : List RunOptions) (results : Nat → RunOutcome) : LoopState × LoopExit :=
  runLoopFrom up rfo fc allRunOptions.length results
    (List.range allRunOptions.length) (initState allRunOptions)

/-- The `resultSummary` string built in the `.finally` handler
(index.js lines 161-168). -/
def mkResultSummary (tT tP tF tS : Nat) : String :=
  String.intercalate "\n"
    ["***** Repeat Run Summary *****",
     "Total Tests with repeat: " ++ toString tT,
     "Total Passed: " ++ toString tP,
     "Total Failed: " ++ toString tF,
     "Total Skipped: " ++ toString tS,
     "*****************************"]

/-- The observable outcome of the `.finally` and `.catch` handlers
(index.js lines 159-192): the summary text (also written to the
summary file), whether the `anyTestFailed` branch reported test
failures, the caught rejection message if any, and whether the catch
handler logged its failure-exit line
(`Exiting with failure due to an error.`), which it does for every
rejection when `forceContinue` is false. -/
structure FinalReport where
  summary : String
  testsFailedReported : Bool
  caughtError : Option String
  errorExitLogged : Bool
deriving Repr, DecidableEq

/-- Build the `FinalReport` from the post-loop state and the way the
promise chain ended. -/
def finalReport (fc : Bool) (st : LoopState) (ex : LoopExit) : FinalReport :=
  { summary := mkResultSummary st.totalTests st.totalPassed st.totalFailed st.totalSkipped,
    testsFailedReported := st.anyTestFailed,
    caughtError := match ex with
      | .completed => none
      | .rejected m => some m,
    errorExitLogged := match ex with
      | .completed => false
      | .rejected _ => !fc }

/-- The whole orchestration: the mapSeries loop followed by the
`.finally` handler (which always runs, on every exit path) and the
`.catch` handler.  Returns the report together with the final state
and the loop exit for inspection. -/
def orchestrate (up rfo fc : Bool) (allRunOptions : List RunOptions) (results : Nat → RunOutcome) : FinalReport × LoopState × LoopExit :=
  let p := runLoop up rfo fc allRunOptions results
  (finalReport fc p.1 p.2, p.1, p.2)

/-- A minimal parsed base configuration (no recording, no grouping). -/
def optSample : RunOptions :=
  { env := none, record := false, group := none, force := false, spec := none }

/-- A base configuration that records with a group label. -/
def optGroupSample : RunOptions :=
  { env := none, record := true, group := some "grp", force := false, spec := none }

/-- A fully passing attempt result: status `finished`, zero failed
tests, one spec file without failures. -/
def rPassSample : TestResults :=
  { totalTests := some 5, totalPassed := some 5, totalFailed := some 0, totalSkipped := some 0,
    status := "finished", failures := none, runs := [⟨⟨"a.cy.js"⟩, ⟨0⟩⟩] }

/-- A finished attempt result with one failed test in `a.cy.js`. -/
def rFailSample : TestResults :=
  { totalTests := some 5, totalPassed := some 4, totalFailed := some 1, totalSkipped := some 0,
    status := "finished", failures := none, runs := [⟨⟨"a.cy.js"⟩, ⟨1⟩⟩] }

/-- A finished attempt result whose only failing file has an empty
relative path. -/
def rEmptyRelSample : TestResults :=
  { totalTests := some 1, totalPassed := some 0, totalFailed := some 1, totalSkipped := some 0,
    status := "finished", failures := none, runs := [⟨⟨""⟩, ⟨1⟩⟩] }

/-! ### Helper machinery: totals as 4-tuples, list-update lemmas -/

/-- The four running counters of a state as one tuple. -/
def totalsOf (st : LoopState) : Nat × Nat × Nat × Nat :=
  (st.totalTests, st.totalPassed, st.totalFailed, st.totalSkipped)

/-- Componentwise addition of count tuples. -/
def addT (a b : Nat × Nat × Nat × Nat) : Nat × Nat × Nat × Nat :=
  (a.1 + b.1, a.2.1 + b.2.1, a.2.2.1 + b.2.2.1, a.2.2.2 + b.2.2.2)

/-- The counts contributed by one result object (`undefined` counts as
zero, mirroring `|| 0`). -/
def resultTotals (r : TestResults) : Nat × Nat × Nat × Nat :=
  (r.totalTests.getD 0, r.totalPassed.getD 0, r.totalFailed.getD 0, r.totalSkipped.getD 0)

/-- The counts contributed by attempt `k` of the oracle: an
infrastructure error contributes nothing (its result never reaches
`onTestResults`). -/
def okTotals (results : Nat → RunOutcome) (k : Nat) : Nat × Nat × Nat × Nat :=
  match results k with
  | .ok r => resultTotals r
  | .err _ => (0, 0, 0, 0)

/-- Sum of a list of count tuples. -/
def sumT : List (Nat × Nat × Nat × Nat) → Nat × Nat × Nat × Nat
  | [] => (0, 0, 0, 0)
  | a :: l => addT a (sumT l)

theorem addT_zero (a : Nat × Nat × Nat × Nat) : addT a (0, 0, 0, 0) = a := by
  obtain ⟨x, y, z, w⟩ := a
  simp [addT]

theorem zero_addT (a : Nat × Nat × Nat × Nat) : addT (0, 0, 0, 0) a = a := by
  obtain ⟨x, y, z, w⟩ := a
  simp [addT]

theorem addT_assoc (a b c : Nat × Nat × Nat × Nat) :
    addT (addT a b) c = addT a (addT b c) := by
  obtain ⟨x, y, z, w⟩ := a
  obtain ⟨x', y', z', w'⟩ := b
  obtain ⟨x'', y'', z'', w''⟩ := c
  simp [addT, Nat.add_assoc]

theorem listModify_get_self {α : Type} :
    ∀ (l : List α) (i : Nat) (f : α → α), (listModify l i f).get? i = (l.get? i).map f
  | [], _, _ => by simp [listModify]
  | _ :: _, 0, _ => by simp [listModify]
  | _ :: l, Nat.succ i, f => by
    simpa [listModify] using listModify_get_self l i f

theorem listModify_get_other {α : Type} :
    ∀ (l : List α) (i j : Nat) (f : α → α), j ≠ i → (listModify l i f).get? j = l.get? j
  | [], _, _, _, _ => by simp [listModify]
  | _ :: _, 0, 0, _, h => absurd rfl h
  | _ :: _, 0, Nat.succ _, _, _ => by simp [listModify]
  | _ :: _, Nat.succ _, 0, _, _ => by simp [listModify]
  | _ :: l, Nat.succ i, Nat.succ j, f, h => by
    have hji : j ≠ i := fun he => h (congrArg Nat.succ he)
    simpa [listModify] using listModify_get_other l i j f hji

/-! ### Helper lemmas about one step of the orchestration -/

theorem afterRerunChecks_fst (up rfo fc : Bool) (k n : Nat) (isL : Bool) (st : LoopState) (r : TestResults) :
    (afterRerunChecks up rfo fc k n isL st r).1 =
      (if r.status == "failed" && truthyNum r.failures then { st with anyTestFailed := true } else st) := rfl

/-- The totals-and-bookkeeping effect of `onTestResults`: the four
counters always grow by the result's counts (missing fields count as
zero), and the step never touches the `executed` instrumentation. -/
theorem onTestResults_state (up rfo fc : Bool) (k n : Nat) (st : LoopState) (r : TestResults) :
    (onTestResults up rfo fc k n st r).1.totalTests = st.totalTests + r.totalTests.getD 0 ∧
    (onTestResults up rfo fc k n st r).1.totalPassed = st.totalPassed + r.totalPassed.getD 0 ∧
    (onTestResults up rfo fc k n st r).1.totalFailed = st.totalFailed + r.totalFailed.getD 0 ∧
    (onTestResults up rfo fc k n st r).1.totalSkipped = st.totalSkipped + r.totalSkipped.getD 0 ∧
    (onTestResults up rfo fc k n st r).1.executed = st.executed := by
  unfold onTestResults
  by_cases h1 : (rfo && !(k == n - 1)) = true <;>
  by_cases h2 : ((failedSpecsOf r).length != 0) = true <;>
  by_cases h3 : (!fc) = true <;>
  by_cases h4 : (r.status == "failed" && truthyNum r.failures) = true <;>
  simp [h1, h2, h3, h4, afterRerunChecks_fst, accumulate]

theorem onTestResults_totals (up rfo fc : Bool) (k n : Nat) (st : LoopState) (r : TestResults) :
    totalsOf (onTestResults up rfo fc k n st r).1 = addT (totalsOf st) (resultTotals r) := by
  obtain ⟨h1, h2, h3, h4, _⟩ := onTestResults_state up rfo fc k n st r
  simp [totalsOf, addT, resultTotals, h1, h2, h3, h4]

theorem onTestResults_executed (up rfo fc : Bool) (k n : Nat) (st : LoopState) (r : TestResults) :
    (onTestResults up rfo fc k n st r).1.executed = st.executed :=
  (onTestResults_state up rfo fc k n st r).2.2.2.2

/-- When rerun-failed-only is off, the failure-observed flag after one
step is the old flag or-ed with the `status === 'failed' &&
testResults.failures` condition — the nonzero-failed-tests branch at
index.js lines 146-153 never touches the flag. -/
theorem onTestResults_anyTestFailed (up fc : Bool) (k n : Nat) (st : LoopState) (r : TestResults) :
    (onTestResults up false fc k n st r).1.anyTestFailed =
      (st.anyTestFailed || (r.status == "failed" && truthyNum r.failures)) := by
  unfold onTestResults
  by_cases h4 : (r.status == "failed" && truthyNum r.failures) = true <;>
  simp [afterRerunChecks_fst, accumulate, h4]

/-- With `--force` and without `--until-passes`, `onTestResults` never
rejects: every branch that returns a rejected promise is guarded by
`!forceContinue` apart from the until-passes early-success exit. -/
theorem onTestResults_force_resolve (rfo : Bool) (k n : Nat) (st : LoopState) (r : TestResults) :
    (onTestResults false rfo true k n st r).2 = StepOutcome.resolve := by
  unfold onTestResults afterRerunChecks
  by_cases h1 : (rfo && !(k == n - 1)) = true <;>
  by_cases h2 : ((failedSpecsOf r).length != 0) = true <;>
  simp [h1, h2]

/-- The effect of one step on the shared `allRunOptions` array: it is
patched at index `k+1` exactly when rerun-failed-only is active, the
attempt is not the last one, and the joined failed-spec string is
nonempty; otherwise it is left alone. -/
theorem onTestResults_allRunOptions (up rfo fc : Bool) (k n : Nat) (st : LoopState) (r : TestResults) :
    (onTestResults up rfo fc k n st r).1.allRunOptions =
      (if (rfo && !(k == n - 1)) && ((failedSpecsOf r).length != 0) then
        listModify st.allRunOptions (k + 1) (fun o => { o with spec := some (failedSpecsOf r) })
      else st.allRunOptions) := by
  unfold onTestResults
  by_cases h1 : (rfo && !(k == n - 1)) = true <;>
  by_cases h2 : ((failedSpecsOf r).length != 0) = true <;>
  by_cases h3 : (!fc) = true <;>
  by_cases h4 : (r.status == "failed" && truthyNum r.failures) = true <;>
  simp [h1, h2, h3, h4, afterRerunChecks_fst, accumulate]

/-! ### Loop-level lemmas -/


theorem runLoopFrom_nil (up rfo fc : Bool) (n : Nat) (results : Nat → RunOutcome) (st : LoopState) :
    runLoopFrom up rfo fc n results [] st = (st, LoopExit.completed) := rfl

theorem runLoopFrom_cons_err (up rfo fc : Bool) (n : Nat) (results : Nat → RunOutcome)
    (k : Nat) (ks : List Nat) (st : LoopState) (m : String) (hk : results k = RunOutcome.err m) :
    runLoopFrom up rfo fc n results (k :: ks) st =
      ({ st with executed := st.executed + 1 }, LoopExit.rejected m) := by
  simp only [runLoopFrom, hk]

theorem runLoopFrom_cons_resolve (up rfo fc : Bool) (n : Nat) (results : Nat → RunOutcome)
    (k : Nat) (ks : List Nat) (st : LoopState) (r : TestResults) (st2 : LoopState)
    (hk : results k = RunOutcome.ok r)
    (hstep : onTestResults up rfo fc k n { st with executed := st.executed + 1 } r = (st2, StepOutcome.resolve)) :
    runLoopFrom up rfo fc n results (k :: ks) st = runLoopFrom up rfo fc n results ks st2 := by
  simp only [runLoopFrom, hk, hstep]

theorem runLoopFrom_cons_reject (up rfo fc : Bool) (n : Nat) (results : Nat → RunOutcome)
    (k : Nat) (ks : List Nat) (st : LoopState) (r : TestResults) (st2 : LoopState) (m : String)
    (hk : results k = RunOutcome.ok r)
    (hstep : onTestResults up rfo fc k n { st with executed := st.executed + 1 } r = (st2, StepOutcome.reject m)) :
    runLoopFrom up rfo fc n results (k :: ks) st = (st2, LoopExit.rejected m) := by
  simp only [runLoopFrom, hk, hstep]

/-- The loop only ever increases the `executed` counter, executes at
most as many attempts as indices remain, and the four counters grow by
exactly the counts of the results delivered for the executed prefix of
the remaining indices (an infrastructure error counts as an executed
attempt contributing nothing, a processed result contributes its
counts even when the step then rejects). -/
theorem runLoopFrom_totals (up rfo fc : Bool) (n : Nat) (results : Nat → RunOutcome) :
    ∀ (ks : List Nat) (st : LoopState),
      st.executed ≤ (runLoopFrom up rfo fc n results ks st).1.executed ∧
      (runLoopFrom up rfo fc n results ks st).1.executed - st.executed ≤ ks.length ∧
      totalsOf (runLoopFrom up rfo fc n results ks st).1 =
        addT (totalsOf st)
          (sumT ((ks.take ((runLoopFrom up rfo fc n results ks st).1.executed - st.executed)).map
            (okTotals results)))
  | [], st => by
    rw [runLoopFrom_nil]
    refine ⟨Nat.le.refl, by show st.executed - st.executed ≤ 0; omega, ?_⟩
    simp only [Nat.sub_self, List.take_zero, List.map_nil, sumT]
    exact (addT_zero (totalsOf st)).symm
  | k :: ks, st => by
    rcases hk : results k with r | m
    · rcases hstep : onTestResults up rfo fc k n { st with executed := st.executed + 1 } r with ⟨st2, out⟩
      have hex2 : st2.executed = st.executed + 1 := by
        have h := onTestResults_executed up rfo fc k n { st with executed := st.executed + 1 } r
        rw [hstep] at h
        exact h
      have htot2 : totalsOf st2 = addT (totalsOf st) (resultTotals r) := by
        have h := onTestResults_totals up rfo fc k n { st with executed := st.executed + 1 } r
        rw [hstep] at h
        simpa [totalsOf] using h
      have hok : okTotals results k = resultTotals r := by simp [okTotals, hk]
      cases out with
      | resolve =>
        rw [runLoopFrom_cons_resolve up rfo fc n results k ks st r st2 hk hstep]
        obtain ⟨ih1, ih2, ih3⟩ := runLoopFrom_totals up rfo fc n results ks st2
        have hex1 : st.executed ≤ (runLoopFrom up rfo fc n results ks st2).1.executed := by omega
        refine ⟨hex1, by simp only [List.length_cons]; omega, ?_⟩
        have hd : (runLoopFrom up rfo fc n results ks st2).1.executed - st.executed =
            ((runLoopFrom up rfo fc n results ks st2).1.executed - st2.executed) + 1 := by omega
        rw [hd, List.take_succ_cons, List.map_cons]
        simp only [sumT]
        rw [hok, ih3, htot2, addT_assoc]
      | reject m =>
        rw [runLoopFrom_cons_reject up rfo fc n results k ks st r st2 m hk hstep]
        refine ⟨by simp only [hex2]; omega, by simp only [hex2, List.length_cons]; omega, ?_⟩
        have hd : st2.executed - st.executed = 1 := by omega
        simp only [hd, List.take_succ_cons, List.take_zero, List.map_cons, List.map_nil, sumT]
        rw [hok, addT_zero, htot2]
    · rw [runLoopFrom_cons_err up rfo fc n results k ks st m hk]
      have hok : okTotals results k = (0, 0, 0, 0) := by simp [okTotals, hk]
      refine ⟨by simp only []; omega, by simp only [List.length_cons]; omega, ?_⟩
      have hd : ({ st with executed := st.executed + 1 } : LoopState).executed - st.executed = 1 := by
        simp only []
        omega
      simp only [hd, List.take_succ_cons, List.take_zero, List.map_cons, List.map_nil, sumT]
      rw [hok, addT_zero, addT_zero]
      simp [totalsOf]

/-- With `--force` and without `--until-passes`, a loop whose remaining
attempts all deliver result objects (no infrastructure error) runs
every remaining attempt and completes normally. -/
theorem runLoopFrom_force_completes (rfo : Bool) (n : Nat) (results : Nat → RunOutcome) :
    ∀ (ks : List Nat) (st : LoopState),
      (∀ k ∈ ks, ∃ r, results k = RunOutcome.ok r) →
      (runLoopFrom false rfo true n results ks st).2 = LoopExit.completed ∧
      (runLoopFrom false rfo true n results ks st).1.executed = st.executed + ks.length
  | [], st, _ => by
    rw [runLoopFrom_nil]
    exact ⟨rfl, by simp⟩
  | k :: ks, st, hall => by
    obtain ⟨r, hk⟩ := hall k (List.mem_cons_self k ks)
    rcases hstep : onTestResults false rfo true k n { st with executed := st.executed + 1 } r with ⟨st2, out⟩
    have hout : out = StepOutcome.resolve := by
      have h := onTestResults_force_resolve rfo k n { st with executed := st.executed + 1 } r
      rw [hstep] at h
      exact h
    subst hout
    have hex2 : st2.executed = st.executed + 1 := by
      have h := onTestResults_executed false rfo true k n { st with executed := st.executed + 1 } r
      rw [hstep] at h
      exact h
    rw [runLoopFrom_cons_resolve false rfo true n results k ks st r st2 hk hstep]
    obtain ⟨ih1, ih2⟩ := runLoopFrom_force_completes rfo n results ks st2
      (fun j hj => hall j (List.mem_cons_of_mem k hj))
    refine ⟨ih1, ?_⟩
    rw [ih2, hex2, List.length_cons]
    omega

/-! ### Characters of rendered naturals (for the summary line count) -/

theorem digitChar_ne_newline (m : Nat) : Nat.digitChar m ≠ '\n' := by
  by_cases h : m < 17
  · interval_cases m <;> decide
  · have he : Nat.digitChar m = '*' := by
      unfold Nat.digitChar
      repeat rw [if_neg (by omega)]
    rw [he]
    decide

theorem toDigitsCore_chars (b : Nat) :
    ∀ (fuel n : Nat) (ds : List Char) (c : Char), c ∈ Nat.toDigitsCore b fuel n ds →
      c ∈ ds ∨ ∃ m, c = Nat.digitChar m
  | 0, _, ds, c, hc => by
    unfold Nat.toDigitsCore at hc
    exact Or.inl hc
  | fuel + 1, n, ds, c, hc => by
    simp only [Nat.toDigitsCore] at hc
    split at hc
    · rcases List.mem_cons.mp hc with h | h
      · exact Or.inr ⟨n % b, h⟩
      · exact Or.inl h
    · rcases toDigitsCore_chars b fuel (n / b) (Nat.digitChar (n % b) :: ds) c hc with h | h
      · rcases List.mem_cons.mp h with h | h
        · exact Or.inr ⟨n % b, h⟩
        · exact Or.inl h
      · exact Or.inr h

/-- The decimal rendering of a natural number never contains a newline,
so each count line of the summary is a single line. -/
theorem newline_not_mem_toString (n : Nat) : '\n' ∉ (toString n).data := by
  intro h
  have h2 : '\n' ∈ Nat.toDigitsCore 10 (n + 1) n [] := h
  rcases toDigitsCore_chars 10 (n + 1) n [] '\n' h2 with h3 | ⟨m, hm⟩
  · simp at h3
  · exact digitChar_ne_newline m hm.symm

theorem mkResultSummary_append_form (tT tP tF tS : Nat) :
    mkResultSummary tT tP tF tS =
      "***** Repeat Run Summary *****" ++ "\n" ++ ("Total Tests with repeat: " ++ toString tT) ++ "\n" ++
      ("Total Passed: " ++ toString tP) ++ "\n" ++ ("Total Failed: " ++ toString tF) ++ "\n" ++
      ("Total Skipped: " ++ toString tS) ++ "\n" ++ "*****************************" := rfl

/-- The summary text always consists of exactly six lines (five
newline separators): a header, four count lines, a footer. -/
theorem mkResultSummary_newlines (tT tP tF tS : Nat) :
    ((mkResultSummary tT tP tF tS).data.count '\n') = 5 := by
  rw [mkResultSummary_append_form]
  simp only [String.data_append, List.count_append]
  rw [List.count_eq_zero.mpr (newline_not_mem_toString tT),
      List.count_eq_zero.mpr (newline_not_mem_toString tP),
      List.count_eq_zero.mpr (newline_not_mem_toString tF),
      List.count_eq_zero.mpr (newline_not_mem_toString tS)]
  decide

/-! ### Claim theorems -/

/-- C5: the aggregate summary finalization runs on every termination
path of the orchestration — normal completion, early stop with success
or failure, or an infrastructure error from the external run
capability (`orchestrate` is total and its report always carries the
rendered summary) — it is produced exactly once, from the running
totals, and those totals are exactly the sums of the counts of the
attempts that completed before termination (the executed prefix;
an attempt whose run rejected contributes nothing). -/
theorem finalize_always_runs_once_from_completed_attempts (up rfo fc : Bool)
    (allRunOptions : List RunOptions) (results : Nat → RunOutcome) :
    (orchestrate up rfo fc allRunOptions results).1.summary =
      mkResultSummary (orchestrate up rfo fc allRunOptions results).2.1.totalTests
        (orchestrate up rfo fc allRunOptions results).2.1.totalPassed
        (orchestrate up rfo fc allRunOptions results).2.1.totalFailed
        (orchestrate up rfo fc allRunOptions results).2.1.totalSkipped ∧
    totalsOf (orchestrate up rfo fc allRunOptions results).2.1 =
      sumT ((List.range (orchestrate up rfo fc allRunOptions results).2.1.executed).map
        (okTotals results)) ∧
    (orchestrate up rfo fc allRunOptions results).2.1.executed ≤ allRunOptions.length := by
  obtain ⟨h1, h2, h3⟩ := runLoopFrom_totals up rfo fc allRunOptions.length results
    (List.range allRunOptions.length) (initState allRunOptions)
  have hinit : (initState allRunOptions).executed = 0 := rfl
  have hz : totalsOf (initState allRunOptions) = (0, 0, 0, 0) := rfl
  rw [hinit, Nat.sub_zero] at h2 h3
  rw [List.length_range] at h2
  refine ⟨rfl, ?_, ?_⟩
  · show totalsOf (runLoopFrom up rfo fc allRunOptions.length results
        (List.range allRunOptions.length) (initState allRunOptions)).1 =
      sumT ((List.range (runLoopFrom up rfo fc allRunOptions.length results
        (List.range allRunOptions.length) (initState allRunOptions)).1.executed).map
        (okTotals results))
    rw [h3, hz, zero_addT, List.take_range, Nat.min_eq_left h2]
  · exact h2

/-- C7: every processed attempt result has its four counts added to
the running sums unconditionally — before and regardless of any
verdict — and consequently, with `--force` present (default mode, no
`--until-passes`) and every run delivering a result, all N attempts
run to completion and the final totals are the sums of every
attempt's counts. -/
theorem totals_accumulate_unconditionally :
    (∀ (up rfo fc : Bool) (k n : Nat) (st : LoopState) (r : TestResults),
      totalsOf (onTestResults up rfo fc k n st r).1 = addT (totalsOf st) (resultTotals r)) ∧
    (∀ (rfo : Bool) (allRunOptions : List RunOptions) (results : Nat → RunOutcome),
      (∀ k, k < allRunOptions.length → ∃ r, results k = RunOutcome.ok r) →
      (runLoop false rfo true allRunOptions results).2 = LoopExit.completed ∧
      (runLoop false rfo true allRunOptions results).1.executed = allRunOptions.length ∧
      totalsOf (runLoop false rfo true allRunOptions results).1 =
        sumT ((List.range allRunOptions.length).map (okTotals results))) := by
  refine ⟨onTestResults_totals, ?_⟩
  intro rfo aro results hall
  have hall2 : ∀ k ∈ List.range aro.length, ∃ r, results k = RunOutcome.ok r := by
    intro k hk
    exact hall k (List.mem_range.mp hk)
  obtain ⟨hc, he⟩ := runLoopFrom_force_completes rfo aro.length results
    (List.range aro.length) (initState aro) hall2
  have hinit : (initState aro).executed = 0 := rfl
  rw [hinit, List.length_range, Nat.zero_add] at he
  refine ⟨hc, he, ?_⟩
  obtain ⟨_, _, h3⟩ := runLoopFrom_totals false rfo true aro.length results
    (List.range aro.length) (initState aro)
  have hz : totalsOf (initState aro) = (0, 0, 0, 0) := rfl
  show totalsOf (runLoopFrom false rfo true aro.length results
      (List.range aro.length) (initState aro)).1 =
    sumT ((List.range aro.length).map (okTotals results))
  rw [h3, hz, zero_addT, hinit, Nat.sub_zero, he, List.take_range, Nat.min_self]

/-- C7 witness: the step-level accumulation at a concrete input, and
the force-mode full run at two attempts both failing (totals cover
both attempts, the loop completes, both attempts executed). -/
theorem totals_accumulate_unconditionally_witness :
    totalsOf (onTestResults false false false 0 2 (initState [optSample, optSample]) rFailSample).1 =
      addT (totalsOf (initState [optSample, optSample])) (resultTotals rFailSample) ∧
    (runLoop false false true [optSample, optSample] (fun _ => RunOutcome.ok rFailSample)).2 =
      LoopExit.completed ∧
    (runLoop false false true [optSample, optSample] (fun _ => RunOutcome.ok rFailSample)).1.executed = 2 ∧
    totalsOf (runLoop false false true [optSample, optSample] (fun _ => RunOutcome.ok rFailSample)).1 =
      sumT ((List.range 2).map (okTotals (fun _ => RunOutcome.ok rFailSample))) :=
  ⟨totals_accumulate_unconditionally.1 false false false 0 2 (initState [optSample, optSample]) rFailSample,
   (totals_accumulate_unconditionally.2 false [optSample, optSample]
      (fun _ => RunOutcome.ok rFailSample) (fun _ _ => ⟨rFailSample, rfl⟩)).1,
   (totals_accumulate_unconditionally.2 false [optSample, optSample]
      (fun _ => RunOutcome.ok rFailSample) (fun _ _ => ⟨rFailSample, rfl⟩)).2.1,
   (totals_accumulate_unconditionally.2 false [optSample, optSample]
      (fun _ => RunOutcome.ok rFailSample) (fun _ _ => ⟨rFailSample, rfl⟩)).2.2⟩

/-- C8: the finalized summary is a fixed-format report — a header
line, four count lines and a footer line, joined by newlines (six
lines, five separators: the 6-line description of section 6 matches
the code; the shape is what the claim describes) — and it is the same
fixed shape no matter how many attempts ran or why the loop
stopped. -/
theorem summary_fixed_six_line_format :
    (∀ tT tP tF tS : Nat,
      mkResultSummary tT tP tF tS =
        String.intercalate "\n"
          ["***** Repeat Run Summary *****",
           "Total Tests with repeat: " ++ toString tT,
           "Total Passed: " ++ toString tP,
           "Total Failed: " ++ toString tF,
           "Total Skipped: " ++ toString tS,
           "*****************************"] ∧
      (mkResultSummary tT tP tF tS).data.count '\n' = 5) ∧
    (∀ (up rfo fc : Bool) (allRunOptions : List RunOptions) (results : Nat → RunOutcome),
      (orchestrate up rfo fc allRunOptions results).1.summary =
        mkResultSummary (orchestrate up rfo fc allRunOptions results).2.1.totalTests
          (orchestrate up rfo fc allRunOptions results).2.1.totalPassed
          (orchestrate up rfo fc allRunOptions results).2.1.totalFailed
          (orchestrate up rfo fc allRunOptions results).2.1.totalSkipped) :=
  ⟨fun tT tP tF tS => ⟨rfl, mkResultSummary_newlines tT tP tF tS⟩,
   fun _ _ _ _ _ => rfl⟩

/-- C10: a count field that is missing (`undefined`) contributes zero
to the running sums — in general each counter grows by
`Option.getD 0` of the corresponding field, and a result with all four
fields missing leaves every counter unchanged, so the aggregate sums
are always well-defined naturals. -/
theorem missing_counts_accumulate_as_zero :
    (∀ (up rfo fc : Bool) (k n : Nat) (st : LoopState) (r : TestResults),
      (onTestResults up rfo fc k n st r).1.totalTests = st.totalTests + r.totalTests.getD 0 ∧
      (onTestResults up rfo fc k n st r).1.totalPassed = st.totalPassed + r.totalPassed.getD 0 ∧
      (onTestResults up rfo fc k n st r).1.totalFailed = st.totalFailed + r.totalFailed.getD 0 ∧
      (onTestResults up rfo fc k n st r).1.totalSkipped = st.totalSkipped + r.totalSkipped.getD 0) ∧
    (∀ (up rfo fc : Bool) (k n : Nat) (st : LoopState) (status : String)
        (failures : Option Nat) (runs : List RunEntry),
      (onTestResults up rfo fc k n st
        { totalTests := none, totalPassed := none, totalFailed := none, totalSkipped := none,
          status := status, failures := failures, runs := runs }).1.totalTests = st.totalTests ∧
      (onTestResults up rfo fc k n st
        { totalTests := none, totalPassed := none, totalFailed := none, totalSkipped := none,
          status := status, failures := failures, runs := runs }).1.totalPassed = st.totalPassed ∧
      (onTestResults up rfo fc k n st
        { totalTests := none, totalPassed := none, totalFailed := none, totalSkipped := none,
          status := status, failures := failures, runs := runs }).1.totalFailed = st.totalFailed ∧
      (onTestResults up rfo fc k n st
        { totalTests := none, totalPassed := none, totalFailed := none, totalSkipped := none,
          status := status, failures := failures, runs := runs }).1.totalSkipped = st.totalSkipped) := by
  constructor
  · intro up rfo fc k n st r
    obtain ⟨h1, h2, h3, h4, _⟩ := onTestResults_state up rfo fc k n st r
    exact ⟨h1, h2, h3, h4⟩
  · intro up rfo fc k n st status failures runs
    obtain ⟨h1, h2, h3, h4, _⟩ := onTestResults_state up rfo fc k n st
      { totalTests := none, totalPassed := none, totalFailed := none, totalSkipped := none,
        status := status, failures := failures, runs := runs }
    simpa using ⟨h1, h2, h3, h4⟩

/-- C6: for every N at least 1, building the per-attempt
configurations yields exactly N entries, entry k being the clone-based
`buildRunOption` of the base; in the pure embedding the deep-copy
independence of the entries is the locality of an element update:
replacing entry i never changes entry j for i different from j (and
the base value is untouched by construction). -/
theorem buildAllRunOptions_independent (base : RunOptions) (n : Nat) (fc : Bool) (hn : 1 ≤ n) :
    (buildAllRunOptions base n fc).length = n ∧
    (∀ k, k < n → (buildAllRunOptions base n fc).get? k = some (buildRunOption base n fc k)) ∧
    (∀ (i j : Nat) (x : RunOptions), i ≠ j →
      ((buildAllRunOptions base n fc).set i x).get? j = (buildAllRunOptions base n fc).get? j) := by
  refine ⟨by simp [buildAllRunOptions], ?_, ?_⟩
  · intro k hk
    simp [buildAllRunOptions, List.get?_eq_getElem?, List.getElem?_map, List.getElem?_range hk]
  · intro i j x hij
    exact List.get?_set_ne x (buildAllRunOptions base n fc) hij

/-- C6 witness: with N = 2, the builder yields 2 entries and replacing
entry 0 leaves entry 1 unchanged. -/
theorem buildAllRunOptions_independent_witness :
    (buildAllRunOptions optSample 2 false).length = 2 ∧
    ((buildAllRunOptions optSample 2 false).set 0 optSample).get? 1 =
      (buildAllRunOptions optSample 2 false).get? 1 :=
  ⟨(buildAllRunOptions_independent optSample 2 false (by decide)).1,
   (buildAllRunOptions_independent optSample 2 false (by decide)).2.2 0 1 optSample (by decide)⟩

/-- C9: when the base configuration records with a truthy group label
and N is greater than 1, attempt k (0-indexed here, 1-indexed in the
spec, hence the `k + 1`) gets the group label with suffix
`-(k+1)-of-N` appended; when N = 1 the group label is left
unchanged. -/
theorem group_label_suffix (base : RunOptions) (n : Nat) (fc : Bool) (k : Nat) (g : String)
    (hrec : base.record = true) (hg : base.group = some g) (hne : g ≠ "") :
    (1 < n → (buildRunOption base n fc k).group =
      some (g ++ "-" ++ toString (k + 1) ++ "-of-" ++ toString n)) ∧
    (n = 1 → (buildRunOption base n fc k).group = base.group) := by
  have htrg : truthyStr (some g) = true := by
    simp [truthyStr, hne]
  constructor
  · intro hn
    unfold buildRunOption clone
    cases fc <;> simp [hrec, hg, htrg, hn]
  · intro hn
    subst hn
    unfold buildRunOption clone
    cases fc <;> simp [hrec, hg, htrg]

/-- C9 witness: with recording and group `grp`, N = 3 gives attempt 2
(1-indexed) the label `grp-2-of-3`, while N = 1 leaves the label
untouched. -/
theorem group_label_suffix_witness :
    (buildRunOption optGroupSample 3 false 1).group =
      some ("grp" ++ "-" ++ toString (1 + 1) ++ "-of-" ++ toString 3) ∧
    (buildRunOption optGroupSample 1 false 1).group = optGroupSample.group :=
  ⟨(group_label_suffix optGroupSample 3 false 1 "grp" rfl rfl (by decide)).1 (by decide),
   (group_label_suffix optGroupSample 1 false 1 "grp" rfl rfl (by decide)).2 rfl⟩

/-- C1 (code defect, evaluated): with `--until-passes`, N = 3, no
`--force`, attempt 1 failing and attempt 2 passing, the orchestration
stops immediately after attempt 2 (attempt 3 never starts,
`executed = 2`) via the deliberate early-success rejection, and no
test failure is recorded (`anyTestFailed` stays false, so the summary
block reports success) — but the catch handler reports this
early-success exit as a failure: with `forceContinue` false it logs
`Exiting with failure due to an error.` for every rejection alike
(index.js lines 187-192), even though the rejection's own message says
`exiting with success`. -/
theorem untilPasses_early_success_stops_but_catch_reports_failure :
    (orchestrate true false false [optSample, optSample, optSample]
      (fun k => if k == 0 then RunOutcome.ok rFailSample else RunOutcome.ok rPassSample)).2.1.executed = 2 ∧
    (orchestrate true false false [optSample, optSample, optSample]
      (fun k => if k == 0 then RunOutcome.ok rFailSample else RunOutcome.ok rPassSample)).2.2 =
      LoopExit.rejected "No failures detected, exiting with success." ∧
    (orchestrate true false false [optSample, optSample, optSample]
      (fun k => if k == 0 then RunOutcome.ok rFailSample else RunOutcome.ok rPassSample)).1.testsFailedReported = false ∧
    (orchestrate true false false [optSample, optSample, optSample]
      (fun k => if k == 0 then RunOutcome.ok rFailSample else RunOutcome.ok rPassSample)).1.errorExitLogged = true :=
  ⟨rfl, rfl, rfl, rfl⟩

/-- C2 counterexample: default mode, no `--force`, N = 2, attempt 1
delivers a finished result with one failed test.  The orchestration
does stop after attempt 1 with the failure rejection, but the
failure-observed flag `anyTestFailed` is NOT marked (the flag is only
set for a result with status `"failed"` and truthy `failures`), and
the summary block consequently reports overall success — refuting the
claim that the flag is marked on the nonzero-failed-tests path. -/
theorem default_mode_flag_not_marked_counterexample :
    (orchestrate false false false [optSample, optSample]
      (fun _ => RunOutcome.ok rFailSample)).2.1.executed = 1 ∧
    (orchestrate false false false [optSample, optSample]
      (fun _ => RunOutcome.ok rFailSample)).2.2 =
      LoopExit.rejected "Failures detected and conditions met" ∧
    (orchestrate false false false [optSample, optSample]
      (fun _ => RunOutcome.ok rFailSample)).2.1.anyTestFailed = false ∧
    (orchestrate false false false [optSample, optSample]
      (fun _ => RunOutcome.ok rFailSample)).1.testsFailedReported = false :=
  ⟨rfl, rfl, rfl, rfl⟩

/-- C2 amended: in default mode (neither until-passes nor
rerun-failed-only) without `--force`, every attempt whose result shows
nonzero failed tests stops the orchestration with a failure rejection
— no subsequent attempt runs — but the failure-observed flag is only
marked when the result's status is `"failed"` with truthy `failures`;
the nonzero-failed-tests branch itself leaves the flag unchanged. -/
theorem default_mode_failure_stops (n k : Nat) (ks : List Nat) (st : LoopState)
    (results : Nat → RunOutcome) (r : TestResults)
    (hres : results k = RunOutcome.ok r) (hfail : truthyNum r.totalFailed = true) :
    (runLoopFrom false false false n results (k :: ks) st).2 =
      LoopExit.rejected (if r.status == "failed" && truthyNum r.failures then
        "Test results indicate failures" else "Failures detected and conditions met") ∧
    (runLoopFrom false false false n results (k :: ks) st).1.executed = st.executed + 1 ∧
    (runLoopFrom false false false n results (k :: ks) st).1.anyTestFailed =
      (st.anyTestFailed || (r.status == "failed" && truthyNum r.failures)) := by
  have hstep : onTestResults false false false k n { st with executed := st.executed + 1 } r =
      ((if r.status == "failed" && truthyNum r.failures then
          { accumulate { st with executed := st.executed + 1 } r with anyTestFailed := true }
        else accumulate { st with executed := st.executed + 1 } r),
        StepOutcome.reject (if r.status == "failed" && truthyNum r.failures then
          "Test results indicate failures" else "Failures detected and conditions met")) := by
    unfold onTestResults afterRerunChecks
    by_cases h4 : (r.status == "failed" && truthyNum r.failures) = true <;>
      simp [h4, hfail]
  rw [runLoopFrom_cons_reject false false false n results k ks st r _ _ hres hstep]
  by_cases h4 : (r.status == "failed" && truthyNum r.failures) = true <;>
    simp [h4, accumulate]

/-- C2 amended witness: at a concrete finished failing result the loop
stops at the first attempt with the failure rejection and the flag
stays unchanged. -/
theorem default_mode_failure_stops_witness :
    (runLoopFrom false false false 2 (fun _ => RunOutcome.ok rFailSample) [0, 1]
      (initState [optSample, optSample])).2 =
      LoopExit.rejected (if rFailSample.status == "failed" && truthyNum rFailSample.failures then
        "Test results indicate failures" else "Failures detected and conditions met") ∧
    (runLoopFrom false false false 2 (fun _ => RunOutcome.ok rFailSample) [0, 1]
      (initState [optSample, optSample])).1.executed = (initState [optSample, optSample]).executed + 1 ∧
    (runLoopFrom false false false 2 (fun _ => RunOutcome.ok rFailSample) [0, 1]
      (initState [optSample, optSample])).1.anyTestFailed =
      ((initState [optSample, optSample]).anyTestFailed ||
        (rFailSample.status == "failed" && truthyNum rFailSample.failures)) :=
  default_mode_failure_stops 2 0 [1] (initState [optSample, optSample])
    (fun _ => RunOutcome.ok rFailSample) rFailSample rfl (by decide)

/-- C3 counterexample: `--rerun-failed-only`, no `--force`, N = 2,
attempt 1 (non-final) delivers a result with no failing files.  The
claim says the orchestration stops on the success path with no further
attempts; in fact the step merely resolves its promise (the source
comment reads `Prevent early exit`) and the loop continues — attempt 2
runs (`executed = 2`) and the chain completes normally. -/
theorem rerun_no_failed_specs_counterexample :
    (rPassSample.runs.filter (fun run => run.stats.failures != 0) = []) ∧
    (orchestrate false true false [optSample, optSample]
      (fun _ => RunOutcome.ok rPassSample)).2.1.executed = 2 ∧
    (orchestrate false true false [optSample, optSample]
      (fun _ => RunOutcome.ok rPassSample)).2.2 = LoopExit.completed :=
  ⟨rfl, rfl, rfl⟩

/-- C3 amended: with rerun-failed-only, on a non-final attempt whose
result has no file with nonzero failures and with forceContinue false,
the step returns a resolved promise early (skipping even the failure
checks) and the orchestration continues with the next attempt; the
options array is left unchanged, so the remaining attempts run the
unrestricted configuration. -/
theorem rerun_no_failed_specs_continues (up : Bool) (n k : Nat) (ks : List Nat)
    (st : LoopState) (results : Nat → RunOutcome) (r : TestResults)
    (hres : results k = RunOutcome.ok r)
    (hlast : (k == n - 1) = false)
    (hnofail : r.runs.filter (fun run => run.stats.failures != 0) = []) :
    runLoopFrom up true false n results (k :: ks) st =
      runLoopFrom up true false n results ks
        (accumulate { st with executed := st.executed + 1 } r) ∧
    (accumulate { st with executed := st.executed + 1 } r).allRunOptions = st.allRunOptions := by
  have hfs : failedSpecsOf r = "" := by
    unfold failedSpecsOf
    rw [hnofail]
    rfl
  have hstep : onTestResults up true false k n { st with executed := st.executed + 1 } r =
      (accumulate { st with executed := st.executed + 1 } r, StepOutcome.resolve) := by
    unfold onTestResults
    simp [hlast, hfs]
  exact ⟨runLoopFrom_cons_resolve up true false n results k ks st r _ hres hstep,
    by simp [accumulate]⟩

/-- C3 amended witness: at a concrete passing first attempt of two the
loop continues into the second attempt with unchanged options. -/
theorem rerun_no_failed_specs_continues_witness :
    runLoopFrom false true false 2 (fun _ => RunOutcome.ok rPassSample) [0, 1]
      (initState [optSample, optSample]) =
      runLoopFrom false true false 2 (fun _ => RunOutcome.ok rPassSample) [1]
        (accumulate { initState [optSample, optSample] with
          executed := (initState [optSample, optSample]).executed + 1 } rPassSample) ∧
    (accumulate { initState [optSample, optSample] with
      executed := (initState [optSample, optSample]).executed + 1 } rPassSample).allRunOptions =
      (initState [optSample, optSample]).allRunOptions :=
  rerun_no_failed_specs_continues false 2 0 [1] (initState [optSample, optSample])
    (fun _ => RunOutcome.ok rPassSample) rPassSample rfl (by decide) (by decide)

/-- C4 counterexample: rerun-failed-only, N = 2, attempt 1's result
contains one file with nonzero failures, but that file's relative path
is the empty string: the joined failed-specs string is empty, so the
code takes the no-failed-specs branch and the next attempt's
configuration is NOT patched (its spec selection stays `none`),
refuting the claim as stated for this input. -/
theorem rerun_failed_only_empty_identifier_counterexample :
    ((rEmptyRelSample.runs.filter (fun run => run.stats.failures != 0)).length = 1) ∧
    (onTestResults false true false 0 2 (initState [optSample, optSample])
      rEmptyRelSample).1.allRunOptions = [optSample, optSample] ∧
    optSample.spec = none ∧
    (onTestResults false true false 0 2 (initState [optSample, optSample])
      rEmptyRelSample).2 = StepOutcome.resolve :=
  ⟨rfl, rfl, rfl, rfl⟩

/-- C4 amended: with rerun-failed-only on a non-final attempt, when
the comma-joined identifiers of the files with nonzero failures form a
nonempty string (which fails only in the degenerate case of a single
failing file with an empty identifier), the next attempt's
configuration — and only the next attempt's — is patched so that its
spec selection is exactly that joined identifier string. -/
theorem rerun_failed_only_patches_next (up fc : Bool) (n k : Nat) (st : LoopState) (r : TestResults)
    (hlast : (k == n - 1) = false)
    (hne : (failedSpecsOf r).length ≠ 0) :
    (onTestResults up true fc k n st r).1.allRunOptions.get? (k + 1) =
      (st.allRunOptions.get? (k + 1)).map (fun o => { o with spec := some (failedSpecsOf r) }) ∧
    (∀ j, j ≠ k + 1 →
      (onTestResults up true fc k n st r).1.allRunOptions.get? j = st.allRunOptions.get? j) := by
  have hall := onTestResults_allRunOptions up true fc k n st r
  have hcond : ((true && !(k == n - 1)) && ((failedSpecsOf r).length != 0)) = true := by
    simp [hlast, hne]
  rw [hall, if_pos hcond]
  exact ⟨listModify_get_self st.allRunOptions (k + 1) _,
    fun j hj => listModify_get_other st.allRunOptions (k + 1) j _ hj⟩

/-- C4 amended witness: at a concrete failing attempt the next
configuration's spec selection becomes the joined failed identifiers
(`a.cy.js`) and the current entry is untouched. -/
theorem rerun_failed_only_patches_next_witness :
    (onTestResults false true false 0 2 (initState [optSample, optSample])
      rFailSample).1.allRunOptions.get? 1 =
      ((initState [optSample, optSample]).allRunOptions.get? 1).map
        (fun o => { o with spec := some (failedSpecsOf rFailSample) }) ∧
    (onTestResults false true false 0 2 (initState [optSample, optSample])
      rFailSample).1.allRunOptions.get? 0 =
      (initState [optSample, optSample]).allRunOptions.get? 0 :=
  ⟨(rerun_failed_only_patches_next false false 2 0 (initState [optSample, optSample])
      rFailSample (by decide) (by decide)).1,
   (rerun_failed_only_patches_next false false 2 0 (initState [optSample, optSample])
      rFailSample (by decide) (by decide)).2 0 (by decide)⟩
